import Mathlib

/-!
Verification of the date-alignment and statistical-comparison engine of the
hydrocomp repository (modules `helpers.py`, `statistics.py`, `hydrocomp.py`).

Shallow embedding choices:
* dates (Python `datetime` objects, only ever compared, subtracted and tested
  for equality) are modelled as integers `ℤ`;
* numeric data values are modelled as rationals `ℚ`; numpy elementwise
  operations on equal-length arrays become `List.zipWith` / `List.map`;
* Python exceptions (`ValueError` for the explicit length checks, `IndexError`
  for out-of-bounds indexing, `TypeError` from `int()` applied to a numpy
  index array that does not have exactly one element) are modelled with
  `Except` and explicit error constructors;
* `numpy.where(dates == d)[0]` is the list of all indices of `dates` holding
  `d`; the subsequent `int(...)` conversion succeeds exactly when that list
  has exactly one element.
-/

namespace helpers

/-- Error outcomes of `helpers.subset_data` / `helpers.find_start_end_dates`:
`lengthMismatch` is the explicit `ValueError` raised at helpers.py line 39,
`indexError` models Python `IndexError` from indexing an empty array, and
`lookupError` models the `TypeError` raised by `int(np.where(...))` when the
index array does not have exactly one entry (helpers.py lines 51-52). -/
inductive Err
  | lengthMismatch
  | indexError
  | lookupError
  deriving DecidableEq

/-- Python slice `l[a : b]` for non-negative bounds. -/
def pySlice {α : Type} (l : List α) (a b : Nat) : List α :=
  (l.drop a).take (b - a)

/-- `np.where(l == v)[0]`: the (increasing) list of indices of `l` whose
element equals `v`. -/
def whereIdx (l : List ℤ) (v : ℤ) : List Nat :=
  (List.range l.length).filter (fun i => decide (l.getD i 0 = v))

/-- `int(np.where(l == v)[0])`: succeeds with the unique index exactly when
`v` occurs exactly once in `l`; any other size raises a `TypeError`
(modelled as `none`). -/
def uniqueIdx (l : List ℤ) (v : ℤ) : Option Nat :=
  if (whereIdx l v).length = 1 then some ((whereIdx l v).headD 0) else none

/-- helpers.py lines 44-45: if `start_date` is not within
`[dates[0], dates[-1]]` it is replaced by `dates[0]`. -/
def clampStart (dates : List ℤ) (start_date : ℤ) : ℤ :=
  if start_date < dates.getD 0 0 ∨ start_date > dates.getD (dates.length - 1) 0 then
    dates.getD 0 0
  else start_date

/-- helpers.py lines 47-48: if `end_date` is not within
`[dates[0], dates[-1]]` it is replaced by `dates[-1]`. -/
def clampEnd (dates : List ℤ) (end_date : ℤ) : ℤ :=
  if end_date > dates.getD (dates.length - 1) 0 ∨ end_date < dates.getD 0 0 then
    dates.getD (dates.length - 1) 0
  else end_date

/-- helpers.py `subset_data(dates, data, start_date, end_date)` (lines 18-64):
check `len(dates) != len(data)` first (ValueError), then clamp the window to
the range of `dates` (IndexError on an empty `dates` array, since `dates[0]`
is evaluated), look both boundary dates up by exact equality, and return the
inclusive slices `dates[start_idx : end_idx + 1]`, `data[start_idx : end_idx + 1]`. -/
def subset_data (dates : List ℤ) (data : List ℚ) (start_date end_date : ℤ) :
    Except Err (List ℤ × List ℚ) :=
  if dates.length ≠ data.length then .error .lengthMismatch
  else if dates = [] then .error .indexError
  else
    match uniqueIdx dates (clampStart dates start_date),
          uniqueIdx dates (clampEnd dates end_date) with
    | some start_idx, some end_idx =>
        .ok (pySlice dates start_idx (end_idx + 1), pySlice data start_idx (end_idx + 1))
    | _, _ => .error .lookupError

/-- helpers.py `find_start_end_dates(model_dates, observed_dates)`
(lines 66-91): the later of the two first dates and the earlier of the two
last dates; indexing an empty array raises IndexError. -/
def find_start_end_dates (model_dates observed_dates : List ℤ) :
    Except Err (ℤ × ℤ) :=
  if model_dates = [] ∨ observed_dates = [] then .error .indexError
  else
    .ok
      (if observed_dates.getD 0 0 > model_dates.getD 0 0 then observed_dates.getD 0 0
       else model_dates.getD 0 0,
       if observed_dates.getD (observed_dates.length - 1) 0 >
            model_dates.getD (model_dates.length - 1) 0 then
         model_dates.getD (model_dates.length - 1) 0
       else observed_dates.getD (observed_dates.length - 1) 0)

end helpers

namespace statistics

/-- statistics.py `absolute_error` (lines 24-52): elementwise `x - x_true`. -/
def absolute_error (x x_true : List ℚ) : List ℚ :=
  x.zipWith (fun a b => a - b) x_true

/-- `np.mean`: sum divided by length. -/
def mean (l : List ℚ) : ℚ := l.sum / (l.length : ℚ)

/-- statistics.py `mean_squared_error` (lines 54-84):
`np.mean(absolute_error(x, x_true) ** 2)`. -/
def mean_squared_error (x x_true : List ℚ) : ℚ :=
  mean ((absolute_error x x_true).map (fun a => a ^ 2))

/-- statistics.py `relative_error` (lines 86-115):
`absolute_error(x, x_true) / x_true`, elementwise. -/
def relative_error (x x_true : List ℚ) : List ℚ :=
  (absolute_error x x_true).zipWith (fun a b => a / b) x_true

/-- statistics.py `percent_error` (lines 117-146):
`relative_error(x, x_true) * 100`, elementwise. -/
def percent_error (x x_true : List ℚ) : List ℚ :=
  (relative_error x x_true).map (fun a => a * 100)

/-- statistics.py `percent_difference` (lines 148-179):
`((x - x_true) / avg) * 100` where `avg` is the elementwise mean of the
pair, `np.average((x, x_true), axis = 0)`. -/
def percent_difference (x x_true : List ℚ) : List ℚ :=
  x.zipWith (fun a b => ((a - b) / ((a + b) / 2)) * 100) x_true

/-- statistics.py `r_squared` (lines 181-213): the square of the Pearson
correlation coefficient `np.corrcoef(modeled, observed)[0, 1]`.  With
`sxy = Σ (x - mean x)(y - mean y)`, `sxx = Σ (x - mean x)^2` and
`syy = Σ (y - mean y)^2`, the coefficient is `r = sxy / sqrt (sxx * syy)`,
so its square is `sxy ^ 2 / (sxx * syy)`, which is the rational-valued
form embedded here (only the square is ever used by the source). -/
def r_squared (modeled observed : List ℚ) : ℚ :=
  ((modeled.zipWith (fun a b => (a - mean modeled) * (b - mean observed)) observed).sum) ^ 2 /
    ((modeled.map (fun a => (a - mean modeled) ^ 2)).sum *
      (observed.map (fun b => (b - mean observed) ^ 2)).sum)

/-- statistics.py `nash_sutcliffe` (lines 216-255):
`1 - sum((observed - modeled) ** 2) / sum((observed - mean(observed)) ** 2)`. -/
def nash_sutcliffe (modeled observed : List ℚ) : ℚ :=
  1 - ((observed.zipWith (fun o m => o - m) modeled).map (fun a => a ^ 2)).sum /
      (observed.map (fun o => (o - mean observed) ^ 2)).sum

end statistics

namespace hydrocomp

/-- Error outcomes of `hydrocomp.compare`: `lengthMismatch` is the explicit
`ValueError` of hydrocomp.py lines 89-90; `indexError` models the Python
`IndexError` raised by `dates[1] - dates[0]` (line 101) when fewer than two
aligned dates are supplied. -/
inductive Err
  | lengthMismatch
  | indexError
  deriving DecidableEq

/-- The `stats` dictionary built by hydrocomp.py `compare` (lines 106-121). -/
structure Stats where
  relative_error : List ℚ
  percent_error : List ℚ
  percent_difference : List ℚ
  mean_squared_error : ℚ
  r_squared_coeff : ℚ
  nash_sutcliffe_coeff : ℚ
  deriving DecidableEq

/-- The `comp_data` dictionary built by hydrocomp.py `compare`
(lines 94-125). -/
structure CompData where
  parameter_name : String
  model_name : String
  observed_name : String
  modeled_parameter : List ℚ
  observed_parameter : List ℚ
  dates : List ℤ
  timestep : ℤ
  stats : Stats
  deriving DecidableEq

/-- hydrocomp.py `compare` (lines 36-125): raises ValueError when
`len(modeled_parameter) != len(observed_parameter)`; otherwise builds
`comp_data` (whose `timestep` field `dates[1] - dates[0]` raises IndexError
when fewer than two dates are given), computes every statistic and returns
the fully assembled record. -/
def compare (parameter_name model_name observed_name : String)
    (modeled_parameter observed_parameter : List ℚ) (dates : List ℤ) :
    Except Err CompData :=
  if modeled_parameter.length ≠ observed_parameter.length then .error .lengthMismatch
  else if dates.length < 2 then .error .indexError
  else
    .ok
      { parameter_name := parameter_name
        model_name := model_name
        observed_name := observed_name
        modeled_parameter := modeled_parameter
        observed_parameter := observed_parameter
        dates := dates
        timestep := dates.getD 1 0 - dates.getD 0 0
        stats :=
          { relative_error := statistics.relative_error modeled_parameter observed_parameter
            percent_error := statistics.percent_error modeled_parameter observed_parameter
            percent_difference := statistics.percent_difference modeled_parameter observed_parameter
            mean_squared_error := statistics.mean_squared_error modeled_parameter observed_parameter
            r_squared_coeff := statistics.r_squared modeled_parameter observed_parameter
            nash_sutcliffe_coeff := statistics.nash_sutcliffe modeled_parameter observed_parameter } }

end hydrocomp

/-- Concrete parameter label used in concrete evaluations below. -/
def pName : String := "discharge"

/-- Concrete model label. -/
def mName : String := "model"

/-- Concrete observed label. -/
def obName : String := "observed"

/-! General-purpose lemmas about the embedded list primitives. -/

theorem nodup_eq_singleton {l : List Nat} {k : Nat} (hn : l.Nodup) (hm : k ∈ l)
    (hall : ∀ x ∈ l, x = k) : l = [k] := by
  cases l with
  | nil => simp at hm
  | cons a t =>
    have ha : a = k := hall a (List.mem_cons_self a t)
    cases t with
    | nil => simp [ha]
    | cons b t2 =>
      have hb : b = k := hall b (by simp)
      exfalso
      rw [List.nodup_cons] at hn
      exact hn.1 (by simp [ha, hb])

theorem mem_whereIdx {l : List ℤ} {v : ℤ} {k : Nat} :
    k ∈ helpers.whereIdx l v ↔ k < l.length ∧ l.getD k 0 = v := by
  simp [helpers.whereIdx, List.mem_filter, List.mem_range]

theorem whereIdx_eq_singleton {l : List ℤ} {v : ℤ} {k : Nat}
    (hk : k < l.length) (hv : l.getD k 0 = v)
    (hu : ∀ m, m < l.length → l.getD m 0 = v → m = k) :
    helpers.whereIdx l v = [k] := by
  apply nodup_eq_singleton
  · exact (List.nodup_range l.length).filter _
  · exact mem_whereIdx.mpr ⟨hk, hv⟩
  · intro x hx
    obtain ⟨h1, h2⟩ := mem_whereIdx.mp hx
    exact hu x h1 h2

theorem uniqueIdx_eq_some {l : List ℤ} {v : ℤ} {i : Nat}
    (h : helpers.uniqueIdx l v = some i) : helpers.whereIdx l v = [i] := by
  unfold helpers.uniqueIdx at h
  split at h
  · rename_i hlen
    obtain ⟨a, ha⟩ := List.length_eq_one.mp hlen
    rw [ha] at h ⊢
    simp at h
    rw [h]
  · simp at h

theorem uniqueIdx_of_whereIdx {l : List ℤ} {v : ℤ} {k : Nat}
    (h : helpers.whereIdx l v = [k]) : helpers.uniqueIdx l v = some k := by
  unfold helpers.uniqueIdx
  rw [h]
  simp

theorem pySlice_length {α : Type} (l : List α) (a b : Nat) :
    (helpers.pySlice l a b).length = min (b - a) (l.length - a) := by
  simp [helpers.pySlice]

theorem pySlice_getD {α : Type} (l : List α) (a b k : Nat) (d : α)
    (h : k < (helpers.pySlice l a b).length) :
    (helpers.pySlice l a b).getD k d = l.getD (a + k) d := by
  rw [pySlice_length] at h
  unfold helpers.pySlice
  rw [List.getD_eq_getD_get?, List.getD_eq_getD_get?, List.get?_eq_getElem?,
    List.get?_eq_getElem?, List.getElem?_take_of_lt (by omega), List.getElem?_drop]

theorem pySlice_zero_of_le {α : Type} (l : List α) (b : Nat) (h : l.length ≤ b) :
    helpers.pySlice l 0 b = l := by
  unfold helpers.pySlice
  simp only [List.drop_zero, Nat.sub_zero]
  exact List.take_of_length_le h

theorem clampStart_ge (dates : List ℤ) (s : ℤ) :
    dates.getD 0 0 ≤ helpers.clampStart dates s := by
  unfold helpers.clampStart
  split <;> omega

theorem clampEnd_le (dates : List ℤ) (e : ℤ) :
    helpers.clampEnd dates e ≤ dates.getD (dates.length - 1) 0 := by
  unfold helpers.clampEnd
  split <;> omega

theorem subset_data_eq_of_valid (dates : List ℤ) (data : List ℚ) (s e : ℤ)
    (h1 : dates.length = data.length) (h2 : dates ≠ []) :
    helpers.subset_data dates data s e =
      match helpers.uniqueIdx dates (helpers.clampStart dates s),
            helpers.uniqueIdx dates (helpers.clampEnd dates e) with
      | some i, some j =>
          .ok (helpers.pySlice dates i (j + 1), helpers.pySlice data i (j + 1))
      | _, _ => .error .lookupError := by
  unfold helpers.subset_data
  rw [if_neg (by omega), if_neg h2]

/-! Claim C2: common start/end dates are the later first date and the earlier
last date. -/

/-- C2: for every pair of non-empty date sequences `A` (model) and `B`
(observed), `find_start_end_dates A B` returns the pair
`(max A[0] B[0], min A[-1] B[-1])`: the later of the two first dates and the
earlier of the two last dates. -/
theorem C2_find_start_end_dates (A B : List ℤ) (hA : A ≠ []) (hB : B ≠ []) :
    helpers.find_start_end_dates A B =
      .ok (max (A.getD 0 0) (B.getD 0 0),
        min (A.getD (A.length - 1) 0) (B.getD (B.length - 1) 0)) := by
  unfold helpers.find_start_end_dates
  rw [if_neg (by simp [hA, hB])]
  simp only [Except.ok.injEq, Prod.mk.injEq]
  constructor <;> split <;> omega

/-- C2 witness: on the concrete sequences `[1, 5]` and `[2, 3]` the result is
`(max 1 2, min 5 3) = (2, 3)`. -/
theorem C2_witness : helpers.find_start_end_dates [1, 5] [2, 3] = .ok (2, 3) :=
  (C2_find_start_end_dates [1, 5] [2, 3] (by decide) (by decide)).trans (by rfl)

/-! Claim C9: the length precondition of subset_data. -/

/-- C9: `subset_data` fails with the LengthMismatch error exactly when
`len(dates) ≠ len(data)`; the check happens before any clamping, lookup, or
slicing (the result does not depend on the date values in that case), and
when the lengths are equal no LengthMismatch error is ever produced. -/
theorem C9_subset_data_length_check (dates : List ℤ) (data : List ℚ) (s e : ℤ) :
    helpers.subset_data dates data s e = .error .lengthMismatch ↔
      dates.length ≠ data.length := by
  by_cases hlen : dates.length = data.length
  · have hno : ¬dates.length ≠ data.length := by omega
    simp only [hno, iff_false]
    by_cases hnil : dates = []
    · unfold helpers.subset_data
      rw [if_neg (by omega), if_pos hnil]
      simp
    · rw [subset_data_eq_of_valid dates data s e hlen hnil]
      cases helpers.uniqueIdx dates (helpers.clampStart dates s) <;>
        cases helpers.uniqueIdx dates (helpers.clampEnd dates e) <;> simp
  · unfold helpers.subset_data
    rw [if_pos hlen]
    simp [hlen]

/-! Claim C10: successful subsetting preserves the pairing invariant. -/

/-- C10: whenever `subset_data` succeeds, the returned dates subset and data
subset have equal length (both are sliced with the same pair of indices), so
the `len(dates) == len(data)` invariant of the input is preserved. -/
theorem C10_subset_data_preserves_pairing (dates : List ℤ) (data : List ℚ)
    (s e : ℤ) (p : List ℤ × List ℚ)
    (h : helpers.subset_data dates data s e = .ok p) :
    p.1.length = p.2.length := by
  by_cases hlen : dates.length = data.length
  · by_cases hnil : dates = []
    · unfold helpers.subset_data at h
      rw [if_neg (by omega), if_pos hnil] at h
      simp at h
    · rw [subset_data_eq_of_valid dates data s e hlen hnil] at h
      cases hi : helpers.uniqueIdx dates (helpers.clampStart dates s) with
      | none =>
        rw [hi] at h
        cases hj : helpers.uniqueIdx dates (helpers.clampEnd dates e) <;>
          rw [hj] at h <;> simp at h
      | some i =>
        rw [hi] at h
        cases hj : helpers.uniqueIdx dates (helpers.clampEnd dates e) with
        | none => rw [hj] at h; simp at h
        | some j =>
          rw [hj] at h
          simp only [Except.ok.injEq] at h
          subst h
          simp [pySlice_length, hlen]
  · unfold helpers.subset_data at h
    rw [if_pos hlen] at h
    simp at h

/-- C10 witness: subsetting `[1, 2, 4]` / `[10, 20, 40]` to the window
`[2, 4]` succeeds with subsets `[2, 4]` and `[20, 40]`, which have equal
length. -/
theorem C10_witness :
    (([2, 4], [20, 40]) : List ℤ × List ℚ).1.length =
      (([2, 4], [20, 40]) : List ℤ × List ℚ).2.length :=
  C10_subset_data_preserves_pairing [1, 2, 4] [10, 20, 40] 2 4
    (([2, 4], [20, 40]) : List ℤ × List ℚ) (by rfl)

/-! Elementwise access lemmas for the statistics functions. -/

theorem zipWith_getD (f : ℚ → ℚ → ℚ) :
    ∀ (x y : List ℚ) (i : Nat), i < x.length → i < y.length →
      (x.zipWith f y).getD i 0 = f (x.getD i 0) (y.getD i 0)
  | _ :: _, _ :: _, 0, _, _ => rfl
  | a :: x, b :: y, i + 1, hx, hy =>
      zipWith_getD f x y i (by simpa using hx) (by simpa using hy)
  | [], _, i, hx, _ => by simp at hx
  | _ :: _, [], i, _, hy => by simp at hy

theorem getD_map_of_lt (f : ℚ → ℚ) (l : List ℚ) (i : Nat) (h : i < l.length) :
    (l.map f).getD i 0 = f (l.getD i 0) := by
  rw [List.getD_eq_getElem _ _ (by simpa using h), List.getElem_map,
    List.getD_eq_getElem _ _ h]

theorem map_sq_sub_eq_range :
    ∀ (x y : List ℚ), x.length = y.length →
      (x.zipWith (fun a b => a - b) y).map (fun a => a ^ 2) =
        (List.range x.length).map (fun i => (x.getD i 0 - y.getD i 0) ^ 2)
  | [], y, h => by simp
  | a :: xs, [], h => by simp at h
  | a :: xs, b :: ys, h => by
    have h' : xs.length = ys.length := by simpa using h
    have ih := map_sq_sub_eq_range xs ys h'
    simp only [List.zipWith_cons_cons, List.map_cons, List.length_cons,
      List.range_succ_eq_map, List.map_map]
    refine congrArg₂ _ (by simp) ?_
    rw [ih]
    refine List.map_congr_left ?_
    intro i hi
    simp [Function.comp]

/-! Claim C4: absolute error is the signed elementwise difference and the
mean squared error is the mean of its squares. -/

/-- C4: for equal-length sequences `x`, `x_true`, `absolute_error x x_true`
equals `x - x_true` elementwise (same length, signed), and
`mean_squared_error x x_true` is the scalar mean of `(x[i] - x_true[i])^2`
over all indices `i`. -/
theorem C4_absolute_error_and_mse (x y : List ℚ) (h : x.length = y.length) :
    (statistics.absolute_error x y).length = x.length ∧
    (∀ i, i < x.length →
      (statistics.absolute_error x y).getD i 0 = x.getD i 0 - y.getD i 0) ∧
    statistics.mean_squared_error x y =
      ((List.range x.length).map (fun i => (x.getD i 0 - y.getD i 0) ^ 2)).sum /
        (x.length : ℚ) := by
  refine ⟨by simp [statistics.absolute_error, h], ?_, ?_⟩
  · intro i hi
    exact zipWith_getD _ x y i hi (by omega)
  · unfold statistics.mean_squared_error statistics.mean statistics.absolute_error
    rw [map_sq_sub_eq_range x y h]
    simp

/-- C4 witness: at `x = [3, 5]`, `x_true = [1, 1]` the elementwise error has
length 2 with first entry `3 - 1 = 2`, and the mean squared error is
`((3-1)^2 + (5-1)^2) / 2 = 10`. -/
theorem C4_witness :
    (statistics.absolute_error [3, 5] [1, 1]).length = 2 ∧
    (statistics.absolute_error [3, 5] [1, 1]).getD 0 0 = 2 ∧
    statistics.mean_squared_error [3, 5] [1, 1] = 10 := by
  have h := C4_absolute_error_and_mse [3, 5] [1, 1] rfl
  refine ⟨h.1.trans (by rfl), (h.2.1 0 (by norm_num)).trans (by norm_num),
    (h.2.2).trans (by norm_num [List.range_succ])⟩

/-! Claim C6: percent error is the relative error scaled by 100. -/

/-- C6: for equal-length sequences with nonzero reference values,
`percent_error x x_true` equals `relative_error x x_true * 100` elementwise,
where `relative_error x x_true` is elementwise
`(x[i] - x_true[i]) / x_true[i]`. -/
theorem C6_percent_error (x y : List ℚ) (h : x.length = y.length)
    (hz : ∀ i, i < y.length → y.getD i 0 ≠ 0) :
    ∀ i, i < x.length →
      (statistics.percent_error x y).getD i 0 =
        (statistics.relative_error x y).getD i 0 * 100 ∧
      (statistics.relative_error x y).getD i 0 =
        (x.getD i 0 - y.getD i 0) / y.getD i 0 := by
  intro i hi
  have habs : i < (statistics.absolute_error x y).length := by
    simp [statistics.absolute_error]
    omega
  have habsval : (statistics.absolute_error x y).getD i 0 = x.getD i 0 - y.getD i 0 := by
    unfold statistics.absolute_error
    exact zipWith_getD _ x y i hi (by omega)
  have hrel : (statistics.relative_error x y).getD i 0 =
      (x.getD i 0 - y.getD i 0) / y.getD i 0 := by
    unfold statistics.relative_error
    rw [zipWith_getD _ _ y i habs (by omega), habsval]
  have hlenrel : i < (statistics.relative_error x y).length := by
    simp [statistics.relative_error, statistics.absolute_error]
    omega
  refine ⟨?_, hrel⟩
  unfold statistics.percent_error
  rw [getD_map_of_lt _ _ i hlenrel]

/-- C6 witness: at `x = [2]`, `x_true = [4]` the relative error is
`(2 - 4) / 4 = -1/2` and the percent error is `-50`. -/
theorem C6_witness :
    (statistics.percent_error [2] [4]).getD 0 0 =
      (statistics.relative_error [2] [4]).getD 0 0 * 100 ∧
    (statistics.relative_error [2] [4]).getD 0 0 = -1 / 2 := by
  have h := C6_percent_error [2] [4] rfl
    (by
      intro i hi
      have h0 : i = 0 := by simpa using hi
      subst h0
      norm_num) 0 (by norm_num)
  exact ⟨h.1, h.2.trans (by norm_num)⟩

/-! Claim C5: Nash-Sutcliffe of a non-constant series against itself. -/

theorem sum_eq_zero_each (l : List ℚ) (h0 : ∀ a ∈ l, 0 ≤ a) (hs : l.sum = 0) :
    ∀ a ∈ l, a = 0 := by
  induction l with
  | nil => simp
  | cons a t ih =>
    simp only [List.sum_cons] at hs
    have hta : 0 ≤ a := h0 a (by simp)
    have htt : 0 ≤ t.sum := List.sum_nonneg (fun b hb => h0 b (by simp [hb]))
    have ha : a = 0 := by linarith
    have ht : t.sum = 0 := by linarith
    intro b hb
    rcases List.mem_cons.mp hb with rfl | hb2
    · exact ha
    · exact ih (fun c hc => h0 c (by simp [hc])) ht b hb2

theorem zipWith_self_sub_sq_sum (l : List ℚ) :
    ((l.zipWith (fun o m => o - m) l).map (fun a => a ^ 2)).sum = 0 := by
  induction l with
  | nil => rfl
  | cons a t ih => simp [ih]

/-- C5: for every non-constant sequence `observed`,
`nash_sutcliffe observed observed = 1`: the error sum
`Σ (observed[i] - observed[i])^2` is zero and the variance denominator
`Σ (observed[i] - mean observed)^2` is nonzero. -/
theorem C5_nash_sutcliffe_self (observed : List ℚ)
    (h : ∃ a ∈ observed, ∃ b ∈ observed, a ≠ b) :
    ((observed.zipWith (fun o m => o - m) observed).map (fun a => a ^ 2)).sum = 0 ∧
    (observed.map (fun o => (o - statistics.mean observed) ^ 2)).sum ≠ 0 ∧
    statistics.nash_sutcliffe observed observed = 1 := by
  obtain ⟨a, ha, b, hb, hab⟩ := h
  have hnum := zipWith_self_sub_sq_sum observed
  have hden : (observed.map (fun o => (o - statistics.mean observed) ^ 2)).sum ≠ 0 := by
    intro hzero
    have hall := sum_eq_zero_each _
      (by
        intro c hc
        simp only [List.mem_map] at hc
        obtain ⟨o, _, rfl⟩ := hc
        positivity) hzero
    have ha0 : (a - statistics.mean observed) ^ 2 = 0 :=
      hall _ (List.mem_map.mpr ⟨a, ha, rfl⟩)
    have hb0 : (b - statistics.mean observed) ^ 2 = 0 :=
      hall _ (List.mem_map.mpr ⟨b, hb, rfl⟩)
    have ha1 : a - statistics.mean observed = 0 :=
      (pow_eq_zero_iff (by norm_num)).mp ha0
    have hb1 : b - statistics.mean observed = 0 :=
      (pow_eq_zero_iff (by norm_num)).mp hb0
    exact hab (by linarith)
  refine ⟨hnum, hden, ?_⟩
  unfold statistics.nash_sutcliffe
  rw [hnum, zero_div, sub_zero]

/-- C5 witness: `[1, 2]` is non-constant and its Nash-Sutcliffe efficiency
against itself is exactly 1. -/
theorem C5_witness : statistics.nash_sutcliffe [1, 2] [1, 2] = 1 :=
  (C5_nash_sutcliffe_self [1, 2] ⟨1, by norm_num, 2, by norm_num, by norm_num⟩).2.2

/-! Claim C1: which length precondition does `compare` actually enforce. -/

/-- C1 counterexample: `compare` called with equal-length value sequences of
length 2 but an aligned date sequence of length 3 succeeds, so a mismatch
between the value sequences and the aligned date sequence is NOT rejected:
the explicit check of hydrocomp.py lines 89-90 only compares the two value
sequences. -/
theorem C1_counterexample :
    hydrocomp.compare pName mName obName [1, 2] [3, 4] [0, 1, 2] =
      .ok
        ⟨pName, mName, obName, [1, 2], [3, 4], [0, 1, 2], 1,
          ⟨statistics.relative_error [1, 2] [3, 4],
            statistics.percent_error [1, 2] [3, 4],
            statistics.percent_difference [1, 2] [3, 4],
            statistics.mean_squared_error [1, 2] [3, 4],
            statistics.r_squared [1, 2] [3, 4],
            statistics.nash_sutcliffe [1, 2] [3, 4]⟩⟩ := by
  rfl

/-- C1 amended: `compare` fails with the LengthMismatch error exactly when
`len(modeled_values) ≠ len(observed_values)`; the length of the aligned date
sequence is not part of the explicit check, so a mismatch between the value
sequences and the aligned dates is not rejected by it. -/
theorem C1_compare_length_check (pn mn obn : String)
    (modeled observed : List ℚ) (dates : List ℤ) :
    hydrocomp.compare pn mn obn modeled observed dates = .error .lengthMismatch ↔
      modeled.length ≠ observed.length := by
  unfold hydrocomp.compare
  by_cases hlen : modeled.length = observed.length
  · rw [if_neg (by omega)]
    by_cases hd : dates.length < 2
    · rw [if_pos hd]
      simp [hlen]
    · rw [if_neg hd]
      simp [hlen]
  · rw [if_pos (by omega)]
    simp [hlen]

/-! Claim C7: `compare` is all-or-nothing. -/

/-- C7: when `compare` fails with the LengthMismatch error (for example,
modeled values of length 5 against observed values of length 4), no partial
comparison record is produced (the result is just the error); and on success
the record is fully populated: each of the six statistics fields holds the
corresponding statistic of the modeled/observed pair. -/
theorem C7_compare_all_or_nothing :
    (∀ (pn mn obn : String) (modeled observed : List ℚ) (dates : List ℤ)
        (r : hydrocomp.CompData),
        hydrocomp.compare pn mn obn modeled observed dates = .ok r →
          r.stats.relative_error = statistics.relative_error modeled observed ∧
          r.stats.percent_error = statistics.percent_error modeled observed ∧
          r.stats.percent_difference = statistics.percent_difference modeled observed ∧
          r.stats.mean_squared_error = statistics.mean_squared_error modeled observed ∧
          r.stats.r_squared_coeff = statistics.r_squared modeled observed ∧
          r.stats.nash_sutcliffe_coeff = statistics.nash_sutcliffe modeled observed) ∧
    hydrocomp.compare pName mName obName [55.5, 62.1, 65.3, 64.4, 61.2]
        [55.7, 62.0, 65.5, 64.7] [0, 1, 2, 3, 4] = .error .lengthMismatch := by
  constructor
  · intro pn mn obn modeled observed dates r h
    unfold hydrocomp.compare at h
    split at h
    · simp at h
    · split at h
      · simp at h
      · simp only [Except.ok.injEq] at h
        subst h
        exact ⟨rfl, rfl, rfl, rfl, rfl, rfl⟩
  · rfl

/-- C7 witness: a concrete successful call, whose result record holds exactly
the computed relative error in its `relative_error` statistic field. -/
theorem C7_witness :
    (hydrocomp.CompData.mk pName mName obName [1, 2] [3, 5] [0, 1] 1
        (hydrocomp.Stats.mk (statistics.relative_error [1, 2] [3, 5])
          (statistics.percent_error [1, 2] [3, 5])
          (statistics.percent_difference [1, 2] [3, 5])
          (statistics.mean_squared_error [1, 2] [3, 5])
          (statistics.r_squared [1, 2] [3, 5])
          (statistics.nash_sutcliffe [1, 2] [3, 5]))).stats.relative_error =
      statistics.relative_error [1, 2] [3, 5] :=
  (C7_compare_all_or_nothing.1 pName mName obName [1, 2] [3, 5] [0, 1]
    (hydrocomp.CompData.mk pName mName obName [1, 2] [3, 5] [0, 1] 1
      (hydrocomp.Stats.mk (statistics.relative_error [1, 2] [3, 5])
        (statistics.percent_error [1, 2] [3, 5])
        (statistics.percent_difference [1, 2] [3, 5])
        (statistics.mean_squared_error [1, 2] [3, 5])
        (statistics.r_squared [1, 2] [3, 5])
        (statistics.nash_sutcliffe [1, 2] [3, 5]))) (by rfl)).1

/-! Claim C3: clamping of out-of-range window boundaries. -/

/-- C3 counterexample: on the non-empty date sequence `[5, 5]` with
equal-length data `[1, 2]`, a start date `3` before `dates[0]` and an end
date `7` after `dates[-1]`, `subset_data` does not return the full original
sequences: after clamping, `np.where(dates == 5)[0]` has two entries, so the
`int(...)` conversion fails (a `TypeError`) instead of producing the full
subset. -/
theorem C3_counterexample :
    helpers.subset_data [5, 5] [1, 2] 3 7 = .error .lookupError := by
  rfl

/-- C3 amended: `subset_data` clamps an out-of-range `start_date` to
`dates[0]` and an out-of-range `end_date` to `dates[-1]` (calling it with
the out-of-range boundary gives the same result as calling it with the
corresponding extreme date); and when `dates[0]` and `dates[-1]` each occur
exactly once in `dates` (for instance for strictly ascending dates), calling
it with a start date before `dates[0]` and an end date after `dates[-1]`
returns the full original date and data sequences unchanged. -/
theorem C3_subset_data_clamping (dates : List ℤ) (data : List ℚ) (s e : ℤ)
    (hnil : dates ≠ []) (hlen : dates.length = data.length) :
    ((s < dates.getD 0 0 ∨ s > dates.getD (dates.length - 1) 0) →
        helpers.subset_data dates data s e =
          helpers.subset_data dates data (dates.getD 0 0) e) ∧
    ((e > dates.getD (dates.length - 1) 0 ∨ e < dates.getD 0 0) →
        helpers.subset_data dates data s e =
          helpers.subset_data dates data s (dates.getD (dates.length - 1) 0)) ∧
    ((∀ k, k < dates.length → dates.getD k 0 = dates.getD 0 0 → k = 0) →
      (∀ k, k < dates.length → dates.getD k 0 = dates.getD (dates.length - 1) 0 →
          k = dates.length - 1) →
      s < dates.getD 0 0 → e > dates.getD (dates.length - 1) 0 →
      helpers.subset_data dates data s e = .ok (dates, data)) := by
  refine ⟨?_, ?_, ?_⟩
  · intro hout
    have h1 : helpers.clampStart dates s = dates.getD 0 0 := if_pos hout
    have h2 : helpers.clampStart dates (dates.getD 0 0) = dates.getD 0 0 := by
      unfold helpers.clampStart
      split <;> rfl
    unfold helpers.subset_data
    rw [h1, h2]
  · intro hout
    have h1 : helpers.clampEnd dates e = dates.getD (dates.length - 1) 0 := if_pos hout
    have h2 : helpers.clampEnd dates (dates.getD (dates.length - 1) 0) =
        dates.getD (dates.length - 1) 0 := by
      unfold helpers.clampEnd
      split <;> rfl
    unfold helpers.subset_data
    rw [h1, h2]
  · intro hu0 hul hs he
    rw [subset_data_eq_of_valid dates data s e hlen hnil]
    have hn : 0 < dates.length := List.length_pos.mpr hnil
    have hcs : helpers.clampStart dates s = dates.getD 0 0 := if_pos (Or.inl hs)
    have hce : helpers.clampEnd dates e = dates.getD (dates.length - 1) 0 :=
      if_pos (Or.inl he)
    have hw0 : helpers.whereIdx dates (dates.getD 0 0) = [0] :=
      whereIdx_eq_singleton hn rfl hu0
    have hwl : helpers.whereIdx dates (dates.getD (dates.length - 1) 0) =
        [dates.length - 1] :=
      whereIdx_eq_singleton (by omega) rfl hul
    rw [hcs, hce, uniqueIdx_of_whereIdx hw0, uniqueIdx_of_whereIdx hwl]
    show Except.ok (helpers.pySlice dates 0 (dates.length - 1 + 1),
        helpers.pySlice data 0 (dates.length - 1 + 1)) = _
    rw [pySlice_zero_of_le dates _ (by omega), pySlice_zero_of_le data _ (by omega)]

/-- C3 witness: on `dates = [1, 2]`, `data = [10, 20]`, a start date `0`
before `dates[0] = 1` and an end date `5` after `dates[-1] = 2`, the call
behaves as with the clamped boundaries and returns the full series. -/
theorem C3_witness :
    helpers.subset_data [1, 2] [10, 20] 0 5 = helpers.subset_data [1, 2] [10, 20] 1 5 ∧
    helpers.subset_data [1, 2] [10, 20] 0 5 = helpers.subset_data [1, 2] [10, 20] 0 2 ∧
    helpers.subset_data [1, 2] [10, 20] 0 5 = .ok ([1, 2], [10, 20]) := by
  have h := C3_subset_data_clamping [1, 2] [10, 20] 0 5 (by decide) rfl
  have hu0 : ∀ k, k < ([1, 2] : List ℤ).length →
      ([1, 2] : List ℤ).getD k 0 = ([1, 2] : List ℤ).getD 0 0 → k = 0 := by
    intro k hk hv
    have hk2 : k < 2 := by simpa using hk
    interval_cases k
    · rfl
    · exact absurd hv (by decide)
  have hul : ∀ k, k < ([1, 2] : List ℤ).length →
      ([1, 2] : List ℤ).getD k 0 = ([1, 2] : List ℤ).getD (([1, 2] : List ℤ).length - 1) 0 →
        k = ([1, 2] : List ℤ).length - 1 := by
    intro k hk hv
    have hk2 : k < 2 := by simpa using hk
    interval_cases k
    · exact absurd hv (by decide)
    · rfl
  exact ⟨(h.1 (by decide)).trans (by rfl), (h.2.1 (by decide)).trans (by rfl),
    h.2.2 hu0 hul (by decide) (by decide)⟩

/-! Claim C8: idempotence of subsetting. -/

theorem whereIdx_singleton_facts {l : List ℤ} {v : ℤ} {i : Nat}
    (h : helpers.whereIdx l v = [i]) :
    i < l.length ∧ l.getD i 0 = v ∧ ∀ k, k < l.length → l.getD k 0 = v → k = i := by
  have hmem : i ∈ helpers.whereIdx l v := by
    rw [h]
    exact List.mem_singleton.mpr rfl
  obtain ⟨h1, h2⟩ := mem_whereIdx.mp hmem
  refine ⟨h1, h2, ?_⟩
  intro k hk hv
  have hk2 : k ∈ helpers.whereIdx l v := mem_whereIdx.mpr ⟨hk, hv⟩
  rw [h] at hk2
  exact List.mem_singleton.mp hk2

theorem subset_data_ok_inv {dates : List ℤ} {data : List ℚ} {s e : ℤ}
    {ds : List ℤ} {vs : List ℚ}
    (h : helpers.subset_data dates data s e = .ok (ds, vs)) :
    dates.length = data.length ∧ dates ≠ [] ∧
      ∃ i j, helpers.uniqueIdx dates (helpers.clampStart dates s) = some i ∧
        helpers.uniqueIdx dates (helpers.clampEnd dates e) = some j ∧
        ds = helpers.pySlice dates i (j + 1) ∧ vs = helpers.pySlice data i (j + 1) := by
  by_cases hlen : dates.length = data.length
  · by_cases hnil : dates = []
    · unfold helpers.subset_data at h
      rw [if_neg (by omega), if_pos hnil] at h
      simp at h
    · rw [subset_data_eq_of_valid dates data s e hlen hnil] at h
      refine ⟨hlen, hnil, ?_⟩
      cases hi : helpers.uniqueIdx dates (helpers.clampStart dates s) with
      | none =>
        rw [hi] at h
        cases hj : helpers.uniqueIdx dates (helpers.clampEnd dates e) <;>
          rw [hj] at h <;> simp at h
      | some i =>
        rw [hi] at h
        cases hj : helpers.uniqueIdx dates (helpers.clampEnd dates e) with
        | none => rw [hj] at h; simp at h
        | some j =>
          rw [hj] at h
          simp only [Except.ok.injEq, Prod.mk.injEq] at h
          exact ⟨i, j, rfl, rfl, h.1.symm, h.2.symm⟩
  · unfold helpers.subset_data at h
    rw [if_pos (by omega)] at h
    simp at h

/-- C8 counterexample: on the valid pair `[1, 2, 3]` / `[10, 20, 30]` with
the window `start_date = 3`, `end_date = 1` (both members of the date
sequence), the first application of `subset_data` succeeds and returns the
empty subsets, but re-applying `subset_data` to those subsets with the same
window fails with an IndexError (`dates[0]` on an empty array) instead of
returning them identically, so `subset_data` is not idempotent for every
window. -/
theorem C8_counterexample :
    helpers.subset_data [1, 2, 3] [10, 20, 30] 3 1 = .ok ([], []) ∧
    helpers.subset_data ([] : List ℤ) ([] : List ℚ) 3 1 = .error .indexError :=
  ⟨rfl, rfl⟩

/-- C8 amended: `subset_data` is idempotent whenever the first application
returns a non-empty subset: if `subset_data dates data s e` succeeds with
subsets `(ds, vs)` and `ds` is non-empty, then
`subset_data ds vs s e = ok (ds, vs)`.  (When the window selects an empty
subset, re-applying `subset_data` fails with an IndexError instead.) -/
theorem C8_subset_data_idempotent (dates : List ℤ) (data : List ℚ) (s e : ℤ)
    (ds : List ℤ) (vs : List ℚ)
    (h : helpers.subset_data dates data s e = .ok (ds, vs)) (hne : ds ≠ []) :
    helpers.subset_data ds vs s e = .ok (ds, vs) := by
  obtain ⟨hlen, hnil, i, j, hi, hj, hds, hvs⟩ := subset_data_ok_inv h
  obtain ⟨hilt, hival, hiu⟩ := whereIdx_singleton_facts (uniqueIdx_eq_some hi)
  obtain ⟨hjlt, hjval, hju⟩ := whereIdx_singleton_facts (uniqueIdx_eq_some hj)
  have hpos : 0 < ds.length := List.length_pos.mpr hne
  have hdsl : ds.length = j + 1 - i := by
    rw [hds, pySlice_length]
    omega
  have hij : i ≤ j := by omega
  have hdk : ∀ k, k < ds.length → ds.getD k 0 = dates.getD (i + k) 0 := by
    intro k hk
    rw [hds]
    refine pySlice_getD _ _ _ _ _ ?_
    rw [← hds]
    exact hk
  have hd0 : ds.getD 0 0 = helpers.clampStart dates s := by
    rw [hdk 0 hpos]
    simpa using hival
  have hdl : ds.getD (ds.length - 1) 0 = helpers.clampEnd dates e := by
    rw [hdk (ds.length - 1) (by omega)]
    have heq : i + (ds.length - 1) = j := by omega
    rw [heq]
    exact hjval
  have hclampS : helpers.clampStart ds s = helpers.clampStart dates s := by
    by_cases hc : s < dates.getD 0 0 ∨ s > dates.getD (dates.length - 1) 0
    · have hcond : s < ds.getD 0 0 ∨ s > ds.getD (ds.length - 1) 0 := by
        rcases hc with hlt | hgt
        · left
          have hs2 : helpers.clampStart dates s = dates.getD 0 0 := if_pos (Or.inl hlt)
          rw [hd0, hs2]
          exact hlt
        · right
          rw [hdl]
          have hle := clampEnd_le dates e
          omega
      calc helpers.clampStart ds s = ds.getD 0 0 := if_pos hcond
        _ = helpers.clampStart dates s := hd0
    · have hs' : helpers.clampStart dates s = s := if_neg hc
      by_cases hcond : s < ds.getD 0 0 ∨ s > ds.getD (ds.length - 1) 0
      · calc helpers.clampStart ds s = ds.getD 0 0 := if_pos hcond
          _ = helpers.clampStart dates s := hd0
      · calc helpers.clampStart ds s = s := if_neg hcond
          _ = helpers.clampStart dates s := hs'.symm
  have hclampE : helpers.clampEnd ds e = helpers.clampEnd dates e := by
    by_cases hc : e > dates.getD (dates.length - 1) 0 ∨ e < dates.getD 0 0
    · have hcond : e > ds.getD (ds.length - 1) 0 ∨ e < ds.getD 0 0 := by
        rcases hc with hgt | hlt
        · left
          have he2 : helpers.clampEnd dates e = dates.getD (dates.length - 1) 0 :=
            if_pos (Or.inl hgt)
          rw [hdl, he2]
          exact hgt
        · right
          rw [hd0]
          have hge := clampStart_ge dates s
          omega
      calc helpers.clampEnd ds e = ds.getD (ds.length - 1) 0 := if_pos hcond
        _ = helpers.clampEnd dates e := hdl
    · have he' : helpers.clampEnd dates e = e := if_neg hc
      by_cases hcond : e > ds.getD (ds.length - 1) 0 ∨ e < ds.getD 0 0
      · calc helpers.clampEnd ds e = ds.getD (ds.length - 1) 0 := if_pos hcond
          _ = helpers.clampEnd dates e := hdl
      · calc helpers.clampEnd ds e = e := if_neg hcond
          _ = helpers.clampEnd dates e := he'.symm
  have hw0 : helpers.whereIdx ds (helpers.clampStart dates s) = [0] := by
    refine whereIdx_eq_singleton hpos hd0 ?_
    intro m hm hv
    have h1 : dates.getD (i + m) 0 = helpers.clampStart dates s := by
      rw [← hdk m hm]
      exact hv
    have h2 := hiu (i + m) (by omega) h1
    omega
  have hwj : helpers.whereIdx ds (helpers.clampEnd dates e) = [j - i] := by
    refine whereIdx_eq_singleton (by omega) ?_ ?_
    · rw [hdk (j - i) (by omega)]
      have heq : i + (j - i) = j := by omega
      rw [heq]
      exact hjval
    · intro m hm hv
      have h1 : dates.getD (i + m) 0 = helpers.clampEnd dates e := by
        rw [← hdk m hm]
        exact hv
      have h2 := hju (i + m) (by omega) h1
      omega
  have hvl : ds.length = vs.length := by
    rw [hds, hvs, pySlice_length, pySlice_length, hlen]
  rw [subset_data_eq_of_valid ds vs s e hvl hne, hclampS, hclampE,
    uniqueIdx_of_whereIdx hw0, uniqueIdx_of_whereIdx hwj]
  show Except.ok (helpers.pySlice ds 0 (j - i + 1), helpers.pySlice vs 0 (j - i + 1)) = _
  rw [pySlice_zero_of_le ds _ (by omega), pySlice_zero_of_le vs _ (by omega)]

/-- C8 witness: subsetting `[1, 2, 3]` / `[10, 20, 30]` to the window
`[2, 3]` gives `([2, 3], [20, 30])`, and re-subsetting that result with the
same window returns it identically. -/
theorem C8_witness :
    helpers.subset_data [2, 3] [20, 30] 2 3 = .ok ([2, 3], [20, 30]) :=
  C8_subset_data_idempotent [1, 2, 3] [10, 20, 30] 2 3 [2, 3] [20, 30] (by rfl) (by decide)
